import Mathlib

/-!
# Verification of `tools/preprocessing/generate_config.py` (fish-diffusion)

A shallow embedding of the configuration-assembly script.  The script loads
named YAML fragments, optionally synthesizes a multi-speaker dataset
description by scanning `dataset/train` and `dataset/valid`, and writes the
merged document to `configs/<output>.yaml`.

Modelling decisions:
* YAML fragment contents are opaque strings; the filesystem is an explicit
  input (a partial map from path to content, plus a partial map from
  directory path to its listing).
* A Python `dict` built by repeated `d[k] = v` assignment is an association
  list with Python assignment semantics (`dictInsert`): overwrite in place
  when the key is present, append otherwise.
* `enumerate` over `Path.iterdir()` is a recursion over the listing with an
  explicit counter (`buildSpeakerIdsAux`): note the counter advances on
  every entry, directories or not, exactly as in the source.
* Exceptions: `click.Abort` raised after a `logger.error` is the `aborted`
  outcome; an exception that no handler catches (missing trainer file,
  a `KeyError` from a dict lookup) is the `crashed` outcome.
-/

namespace FishDiffusion

/-- One entry of a directory listing: a name and whether it is a directory. -/
structure Entry where
  name : String
  isDir : Bool
deriving DecidableEq, Repr

/-- A Python dict from speaker name to index, as an association list. -/
abbrev Dict := List (String × Nat)

/-- Python `d[k] = v`: overwrite the entry for `k` in place when present,
append `(k, v)` otherwise. -/
def dictInsert (d : Dict) (k : String) (v : Nat) : Dict :=
  if d.any (fun p => p.1 = k) then
    d.map (fun p => if p.1 = k then (k, v) else p)
  else
    d ++ [(k, v)]

/-- Python `d[k]` as an `Option` (a `KeyError` is `none`). -/
def dictGet? (d : Dict) (k : String) : Option Nat :=
  (d.find? (fun p => p.1 = k)).map Prod.snd

/-- Python `d.get(k, default)`. -/
def dictGetD (d : Dict) (k : String) (default : Nat) : Nat :=
  (dictGet? d k).getD default

/-- The keys of a dict, in order. -/
def dictKeys (d : Dict) : List String :=
  d.map Prod.fst

/-- The body of the speaker-id loop:
`for i, folder in enumerate(path.iterdir()): if folder.is_dir(): d[folder.name] = i`,
with `d` the dict built so far and `i` the position of the next entry. -/
def buildSpeakerIdsAux (d : Dict) (i : Nat) : List Entry → Dict
  | [] => d
  | e :: es =>
      buildSpeakerIdsAux (if e.isDir then dictInsert d e.name i else d) (i + 1) es

/-- Speaker Enumerator: maps each subdirectory name in the listing to its
position in the full listing (files are skipped but still advance the
counter, as `enumerate` runs before the `is_dir()` filter). -/
def buildSpeakerIds (listing : List Entry) : Dict :=
  buildSpeakerIdsAux [] 0 listing

/-- Transparent form of the enumerator for listings with distinct names:
each directory entry paired with its position in the full listing,
starting at `i`. -/
def dirPositionsAux (i : Nat) : List Entry → Dict
  | [] => []
  | e :: es =>
      if e.isDir then (e.name, i) :: dirPositionsAux (i + 1) es
      else dirPositionsAux (i + 1) es

lemma dictInsert_of_not_key {d : Dict} {k : String} (v : Nat)
    (h : ∀ p ∈ d, p.1 ≠ k) : dictInsert d k v = d ++ [(k, v)] := by
  unfold dictInsert
  rw [if_neg]
  intro hc
  simp only [List.any_eq_true, decide_eq_true_eq] at hc
  obtain ⟨p, hp, hk⟩ := hc
  exact h p hp hk

lemma buildSpeakerIdsAux_eq_append (es : List Entry) :
    ∀ (d : Dict) (i : Nat), (es.map Entry.name).Nodup →
      (∀ p ∈ d, p.1 ∉ es.map Entry.name) →
      buildSpeakerIdsAux d i es = d ++ dirPositionsAux i es := by
  induction es with
  | nil => intro d i _ _; simp [buildSpeakerIdsAux, dirPositionsAux]
  | cons e es ih =>
      intro d i hnd hdisj
      simp only [List.map_cons, List.nodup_cons] at hnd
      by_cases hdir : e.isDir
      · have hins : dictInsert d e.name i = d ++ [(e.name, i)] := by
          apply dictInsert_of_not_key
          intro p hp
          intro hc
          exact hdisj p hp (by simp [hc])
        have hrec := ih (d ++ [(e.name, i)]) (i + 1) hnd.2 (by
          intro p hp
          rcases List.mem_append.1 hp with hp | hp
          · exact fun hc => hdisj p hp (by simp [hc])
          · simp only [List.mem_singleton] at hp
            subst hp
            exact hnd.1)
        simp [buildSpeakerIdsAux, hdir, hins, dirPositionsAux, hrec]
      · have hrec := ih d (i + 1) hnd.2 (by
          intro p hp hc
          exact hdisj p hp (by simp [hc]))
        simp [buildSpeakerIdsAux, hdir, dirPositionsAux, hrec]

lemma buildSpeakerIds_eq (listing : List Entry)
    (h : (listing.map Entry.name).Nodup) :
    buildSpeakerIds listing = dirPositionsAux 0 listing := by
  have := buildSpeakerIdsAux_eq_append listing [] 0 h (by simp)
  simpa [buildSpeakerIds] using this

lemma dirPositionsAux_length (es : List Entry) :
    ∀ i, (dirPositionsAux i es).length = (es.filter Entry.isDir).length := by
  induction es with
  | nil => intro i; simp [dirPositionsAux]
  | cons e es ih =>
      intro i
      by_cases hdir : e.isDir
      · simp [dirPositionsAux, hdir, List.filter_cons, ih]
      · simp [dirPositionsAux, hdir, List.filter_cons, ih]

lemma dirPositionsAux_snd_ge (es : List Entry) :
    ∀ i, ∀ v ∈ (dirPositionsAux i es).map Prod.snd, i ≤ v := by
  induction es with
  | nil => intro i v hv; simp [dirPositionsAux] at hv
  | cons e es ih =>
      intro i v hv
      by_cases hdir : e.isDir
      · simp only [dirPositionsAux, hdir, if_pos, List.map_cons,
          List.mem_cons] at hv
        rcases hv with hv | hv
        · omega
        · have := ih (i + 1) v hv
          omega
      · simp only [dirPositionsAux, hdir] at hv
        have := ih (i + 1) v (by simpa using hv)
        omega

lemma dirPositionsAux_snd_nodup (es : List Entry) :
    ∀ i, ((dirPositionsAux i es).map Prod.snd).Nodup := by
  induction es with
  | nil => intro i; simp [dirPositionsAux]
  | cons e es ih =>
      intro i
      by_cases hdir : e.isDir
      · simp only [dirPositionsAux, hdir, if_pos, List.map_cons,
          List.nodup_cons]
        refine ⟨fun hmem => ?_, ih (i + 1)⟩
        have := dirPositionsAux_snd_ge es (i + 1) i hmem
        omega
      · simp only [dirPositionsAux, hdir]
        exact ih (i + 1)

lemma dirPositionsAux_snd_all_dirs (es : List Entry) :
    ∀ i, (∀ e ∈ es, e.isDir) →
      (dirPositionsAux i es).map Prod.snd = List.range' i es.length := by
  induction es with
  | nil => intro i _; simp [dirPositionsAux]
  | cons e es ih =>
      intro i hall
      have hdir : e.isDir = true := hall e (by simp)
      simp only [dirPositionsAux, hdir, if_pos, List.map_cons, List.length_cons,
        List.range'_succ]
      rw [ih (i + 1) (fun x hx => hall x (by simp [hx]))]

/-- One per-speaker dataset descriptor (`_target_`, `path`, `speaker_id`). -/
structure DatasetDescriptor where
  target : String
  path : String
  speaker_id : Nat
deriving DecidableEq, Repr

/-- A collection descriptor (`_target_`, `datasets`, `collate_fn`). -/
structure CollectionDescriptor where
  target : String
  datasets : List DatasetDescriptor
  collate_fn : String
deriving DecidableEq, Repr

/-- The `_target_` string of every per-speaker dataset. -/
def naiveTarget : String := "fish_diffusion.datasets.naive.NaiveSVCDataset"

/-- The `_target_` string of the concatenated dataset. -/
def concatTarget : String := "fish_diffusion.datasets.ConcatDataset"

/-- The `collate_fn` string of both collections. -/
def naiveCollateFn : String :=
  "fish_diffusion.datasets.naive.NaiveSVCDataset.collate_fn"

/-- A list comprehension whose element expression may raise (`none`):
the whole comprehension raises iff some element does. -/
def listTraverse (f : α → Option β) : List α → Option (List β)
  | [] => some []
  | a :: as =>
      match f a with
      | none => none
      | some b => (listTraverse f as).map (b :: ·)

/-- The `speaker_id` expression of one validation descriptor:
`train_speaker_ids.get(speaker, val_speaker_ids[speaker])`.  Python
evaluates the default argument `val_speaker_ids[speaker]` first, so a
missing validation key is a `KeyError` even when the training lookup
would succeed. -/
def validSpeakerId (train val : Dict) (speaker : String) : Option Nat :=
  match dictGet? val speaker with
  | none => none
  | some v => some (dictGetD train speaker v)

/-- The training half of the Descriptor Builder: one descriptor per key of
the training map, at `dataset/train/<speaker>`, with
`train_speaker_ids[speaker]` as the index. -/
def buildTrainDescriptors (train : Dict) : Option (List DatasetDescriptor) :=
  listTraverse
    (fun speaker =>
      (dictGet? train speaker).map
        (fun sid => ⟨naiveTarget, "dataset/train/" ++ speaker, sid⟩))
    (dictKeys train)

/-- The validation half of the Descriptor Builder: one descriptor per key of
the validation map, at `dataset/valid/<speaker>`, with
`train_speaker_ids.get(speaker, val_speaker_ids[speaker])` as the index. -/
def buildValidDescriptors (train val : Dict) : Option (List DatasetDescriptor) :=
  listTraverse
    (fun speaker =>
      (validSpeakerId train val speaker).map
        (fun sid => ⟨naiveTarget, "dataset/valid/" ++ speaker, sid⟩))
    (dictKeys val)

lemma dictGet?_isSome_of_mem_keys {d : Dict} {k : String}
    (h : k ∈ dictKeys d) : (dictGet? d k).isSome := by
  induction d with
  | nil => simp [dictKeys] at h
  | cons p ps ih =>
      simp only [dictKeys, List.map_cons, List.mem_cons] at h
      by_cases hk : p.1 = k
      · simp [dictGet?, List.find?, hk]
      · rcases h with h | h
        · exact absurd h.symm hk
        · simpa [dictGet?, List.find?, hk] using ih (by simpa [dictKeys] using h)

lemma dictGet?_of_mem_nodup {d : Dict} {k : String} {v : Nat}
    (hnd : (dictKeys d).Nodup) (h : (k, v) ∈ d) : dictGet? d k = some v := by
  induction d with
  | nil => simp at h
  | cons p ps ih =>
      simp only [dictKeys, List.map_cons, List.nodup_cons] at hnd
      rcases List.mem_cons.1 h with h | h
      · subst h
        simp [dictGet?, List.find?]
      · have hk : p.1 ≠ k := by
          intro hc
          exact hnd.1 (hc ▸ (by simpa [dictKeys] using List.mem_map_of_mem Prod.fst h))
        simpa [dictGet?, List.find?, hk] using
          ih (by simpa [dictKeys] using hnd.2) h

lemma listTraverse_eq_some {f : α → Option β} {g : α → β} (as : List α)
    (h : ∀ a ∈ as, f a = some (g a)) :
    listTraverse f as = some (as.map g) := by
  induction as with
  | nil => simp [listTraverse]
  | cons a as ih =>
      have ha := h a (by simp)
      have hrec := ih (fun x hx => h x (by simp [hx]))
      simp [listTraverse, ha, hrec]

lemma listTraverse_isSome {f : α → Option β} (as : List α)
    (h : ∀ a ∈ as, (f a).isSome) : (listTraverse f as).isSome := by
  induction as with
  | nil => simp [listTraverse]
  | cons a as ih =>
      have ha := h a (by simp)
      obtain ⟨b, hb⟩ := Option.isSome_iff_exists.1 ha
      have hrec := ih (fun x hx => h x (by simp [hx]))
      obtain ⟨bs, hbs⟩ := Option.isSome_iff_exists.1 hrec
      simp [listTraverse, hb, hbs]

lemma validSpeakerId_isSome (train val : Dict) (k : String)
    (h : k ∈ dictKeys val) : (validSpeakerId train val k).isSome := by
  obtain ⟨v, hv⟩ := Option.isSome_iff_exists.1 (dictGet?_isSome_of_mem_keys h)
  simp [validSpeakerId, hv]

lemma buildValidDescriptors_isSome (train val : Dict) :
    (buildValidDescriptors train val).isSome := by
  apply listTraverse_isSome
  intro k hk
  obtain ⟨v, hv⟩ := Option.isSome_iff_exists.1 (validSpeakerId_isSome train val k hk)
  simp [hv]

lemma buildTrainDescriptors_isSome (train : Dict) :
    (buildTrainDescriptors train).isSome := by
  apply listTraverse_isSome
  intro k hk
  obtain ⟨v, hv⟩ := Option.isSome_iff_exists.1 (dictGet?_isSome_of_mem_keys hk)
  simp [hv]

lemma buildValidDescriptors_eq (train val : Dict)
    (hnd : (dictKeys val).Nodup) :
    buildValidDescriptors train val =
      some (val.map (fun p =>
        ⟨naiveTarget, "dataset/valid/" ++ p.1, dictGetD train p.1 p.2⟩)) := by
  unfold buildValidDescriptors
  have h := listTraverse_eq_some (f := fun speaker =>
      (validSpeakerId train val speaker).map
        (fun sid => (⟨naiveTarget, "dataset/valid/" ++ speaker, sid⟩ :
          DatasetDescriptor)))
    (g := fun speaker =>
      ⟨naiveTarget, "dataset/valid/" ++ speaker,
        dictGetD train speaker ((dictGet? val speaker).getD 0)⟩)
    (dictKeys val) ?_
  · rw [h]
    congr 1
    unfold dictKeys
    rw [List.map_map]
    apply List.map_congr_left
    intro p hp
    have hv : dictGet? val p.1 = some p.2 := dictGet?_of_mem_nodup hnd hp
    simp [Function.comp, hv]
  · intro k hk
    obtain ⟨v, hv⟩ := Option.isSome_iff_exists.1 (dictGet?_isSome_of_mem_keys hk)
    simp [validSpeakerId, hv]

/-- The `config.model` section: the loaded fragment, plus the
`speaker_encoder.input_size` override written by the multi-speaker branch
(`none` while the fragment value is untouched). -/
structure ModelSection where
  fragment : String
  speaker_encoder_input_size : Option Nat
deriving DecidableEq, Repr

/-- The `config.dataset` section: either a loaded fragment (single-speaker)
or the synthesized train/valid collections (multi-speaker). -/
inductive DatasetSection where
  | fragment (content : String)
  | synthesized (train valid : CollectionDescriptor)
deriving DecidableEq, Repr

/-- The composite configuration document assembled by `generate_config`. -/
structure Config where
  trainer : String
  model_type : String
  text_features_extractor_type : String
  pitch_extractor_type : String
  tensorboard : Bool
  only_train_speaker_embeddings : Bool
  path : String
  clean : Bool
  num_workers : Nat
  no_augmentation : Bool
  model : ModelSection
  preprocessing : String
  dataset : DatasetSection
  dataloader : String
  scheduler : String
  optimizer : String
deriving DecidableEq, Repr

/-- The filesystem the script reads: fragment files by path, and directory
listings by path (`none` means the file or directory does not exist). -/
structure FileSystem where
  file : String → Option String
  listing : String → Option (List Entry)

/-- `str(FileNotFoundError)` for a missing path, as raised by `open` and
`Path.iterdir`. -/
def fileNotFoundMsg (p : String) : String :=
  "[Errno 2] No such file or directory: " ++ p

/-- One `OmegaConf.save` call: destination path, document, and whether the
save resolves variable references (`resolve=True`). -/
structure WriteOp where
  path : String
  doc : Config
  resolved : Bool
deriving DecidableEq, Repr

/-- How one invocation of `generate_config` ends: a normal return (with the
writes performed and the messages logged), `click.Abort` raised after a
`logger.error` (with the messages logged), or an exception no handler
catches. -/
inductive Outcome where
  | ok (writes : List WriteOp) (logs : List String)
  | aborted (logs : List String)
  | crashed (msg : String)
deriving DecidableEq, Repr

/-- The path of the fragment file for category `cat` and name `n`. -/
def fragPath (cat n : String) : String :=
  "configs/" ++ cat ++ "/" ++ n ++ ".yaml"

/-- `generate_config(model, dataset, scheduler, output_name,
is_multi_speaker)`, with the filesystem explicit.  Each `match` mirrors one
load or scan of the source, in source order; the `aborted` messages are the
exact `logger.error` strings. -/
def generate_config (fs : FileSystem)
    (model dataset scheduler output_name : String)
    (is_multi_speaker : Bool) : Outcome :=
  -- config.trainer = OmegaConf.load("configs/trainer/base.yaml"): not in a
  -- try block, so a missing file is an uncaught exception.
  match fs.file "configs/trainer/base.yaml" with
  | none => .crashed (fileNotFoundMsg "configs/trainer/base.yaml")
  | some trainerFrag =>
  match fs.file (fragPath "model" model) with
  | none => .aborted ["Could not find model " ++ model ++ ", exiting."]
  | some modelFrag =>
  match fs.file (fragPath "preprocessing" model) with
  | none => .aborted ["Could not find model " ++ model ++ ", exiting."]
  | some preFrag =>
  -- dataset / dataloader stage (the second try block)
  let rest := fun (ds : DatasetSection) (dl : String)
      (inputSize : Option Nat) =>
    match fs.file (fragPath "scheduler" scheduler) with
    | none => .aborted ["Could not find scheduler " ++ scheduler ++ ", exiting."]
    | some schedFrag =>
    match fs.file (fragPath "optimizer" scheduler) with
    | none => .aborted ["Could not find scheduler " ++ scheduler ++ ", exiting."]
    | some optFrag =>
      let config : Config :=
        { trainer := trainerFrag
          model_type := "DiffSVC"
          text_features_extractor_type := "HubertSoft"
          pitch_extractor_type := "ParselMouthPitchExtractor"
          tensorboard := false
          only_train_speaker_embeddings := false
          path := "dataset"
          clean := false
          num_workers := 8
          no_augmentation := true
          model := { fragment := modelFrag,
                     speaker_encoder_input_size := inputSize }
          preprocessing := preFrag
          dataset := ds
          dataloader := dl
          scheduler := schedFrag
          optimizer := optFrag }
      .ok [{ path := "configs/" ++ output_name ++ ".yaml",
             doc := config, resolved := true }]
        ["Saved configuration to configs/" ++ output_name ++ ".yaml"]
  if is_multi_speaker then
    -- enumerate dataset/train and dataset/valid (config.path = "dataset")
    match fs.listing "dataset/train" with
    | none => .aborted ["error: " ++ fileNotFoundMsg "dataset/train"]
    | some trainListing =>
    match fs.listing "dataset/valid" with
    | none => .aborted ["error: " ++ fileNotFoundMsg "dataset/valid"]
    | some validListing =>
      let train_speaker_ids := buildSpeakerIds trainListing
      let val_speaker_ids := buildSpeakerIds validListing
      -- the synthesized config.dataset (a KeyError here is uncaught)
      match buildTrainDescriptors train_speaker_ids with
      | none => .crashed "KeyError"
      | some trainDatasets =>
      match buildValidDescriptors train_speaker_ids val_speaker_ids with
      | none => .crashed "KeyError"
      | some validDatasets =>
      match fs.file (fragPath "dataloader" dataset) with
      | none => .aborted
          ["error: " ++ fileNotFoundMsg (fragPath "dataloader" dataset)]
      | some dlFrag =>
        rest
          (.synthesized
            ⟨concatTarget, trainDatasets, naiveCollateFn⟩
            ⟨concatTarget, validDatasets, naiveCollateFn⟩)
          dlFrag
          (some train_speaker_ids.length)
  else
    match fs.file (fragPath "dataset" dataset) with
    | none => .aborted ["Could not find dataset " ++ dataset ++ ", exiting."]
    | some dsFrag =>
    match fs.file (fragPath "dataloader" dataset) with
    | none => .aborted ["Could not find dataset " ++ dataset ++ ", exiting."]
    | some dlFrag =>
      rest (.fragment dsFrag) dlFrag none

/-- The files written by an invocation: the abort and crash paths raise
before the single `OmegaConf.save` call on the last line of the function,
so only a normal return writes anything. -/
def writesOf : Outcome → List WriteOp
  | .ok ws _ => ws
  | .aborted _ => []
  | .crashed _ => []

/-- The messages logged by an invocation. -/
def logsOf : Outcome → List String
  | .ok _ ls => ls
  | .aborted ls => ls
  | .crashed _ => []

lemma error_msg_ne_generic (emsg dd : String) :
    "error: " ++ emsg ≠ "Could not find dataset " ++ dd ++ ", exiting." := by
  intro h
  have h2 := congrArg (fun s => s.data.head?) h
  simp only [String.data_append] at h2
  have he : ("error: ".data ++ emsg.data).head? = some ("e".data.headI) := rfl
  have hc : (("Could not find dataset ".data ++ dd.data) ++ ", exiting.".data).head? =
      some ("C".data.headI) := by
    rw [List.append_assoc]
    rfl
  rw [he, hc] at h2
  exact absurd (Option.some.inj h2) (by decide)

/-- A filesystem on which every fragment load and both directory scans
succeed; used to instantiate proved theorems at a concrete input. -/
def fsOk : FileSystem where
  file := fun p => if p = "unrelated.txt" then none else some "frag"
  listing := fun p =>
    if p = "dataset/train" then some [⟨"spk_a", true⟩, ⟨"spk_b", true⟩]
    else if p = "dataset/valid" then some [⟨"spk_a", true⟩, ⟨"spk_c", true⟩]
    else none

/-- `fsOk` with one extra unrelated file; it agrees with `fsOk` on every
path the assembler reads. -/
def fsOk2 : FileSystem where
  file := fun p => if p = "unrelated.txt" then some "junk" else some "frag"
  listing := fun p =>
    if p = "dataset/train" then some [⟨"spk_a", true⟩, ⟨"spk_b", true⟩]
    else if p = "dataset/valid" then some [⟨"spk_a", true⟩, ⟨"spk_c", true⟩]
    else none

/-- A filesystem missing exactly the `configs/preprocessing/mdl.yaml`
fragment. -/
def fsPreMissing : FileSystem where
  file := fun p => if p = "configs/preprocessing/mdl.yaml" then none else some "frag"
  listing := fun _ => none

/-- A filesystem missing the model fragment for the name `ghost` (and its
preprocessing fragment), with the trainer fragment present. -/
def fsNoModel : FileSystem where
  file := fun p =>
    if p = "configs/model/ghost.yaml" then none
    else if p = "configs/preprocessing/ghost.yaml" then none
    else some "frag"
  listing := fun _ => none

/-- C1: in multi-speaker mode, for every speaker name in the validation
map the builder emits exactly one descriptor at `dataset/valid/<name>`
whose index is the training map's value for the name when present, and the
validation map's own value otherwise. -/
theorem C1_valid_descriptors (train val : Dict)
    (hnd : (dictKeys val).Nodup) :
    buildValidDescriptors train val =
      some (val.map (fun p =>
        ⟨naiveTarget, "dataset/valid/" ++ p.1, dictGetD train p.1 p.2⟩)) ∧
    (∀ k v x, dictGet? train k = some v → dictGetD train k x = v) ∧
    (∀ k x, dictGet? train k = none → dictGetD train k x = x) := by
  refine ⟨buildValidDescriptors_eq train val hnd, ?_, ?_⟩
  · intro k v x h
    simp [dictGetD, h]
  · intro k x h
    simp [dictGetD, h]

/-- Witness for C1, at the spec's own example: training map
`{"a": 0, "b": 1}` and validation map `{"a": 0, "c": 0}`; the validation
collection assigns 0 to `a` (training value) and 0 to `c` (the validation
map's own value). -/
theorem C1_valid_descriptors_witness :
    (dictKeys [("a", 0), ("c", 0)]).Nodup ∧
    buildValidDescriptors [("a", 0), ("b", 1)] [("a", 0), ("c", 0)] =
      some [⟨naiveTarget, "dataset/valid/a", 0⟩,
            ⟨naiveTarget, "dataset/valid/c", 0⟩] := by
  have h := (C1_valid_descriptors [("a", 0), ("b", 1)] [("a", 0), ("c", 0)]
    (by decide)).1
  refine ⟨by decide, ?_⟩
  rw [h]
  decide

/-- C2 counterexample: the listing `[file "f", dir "a"]` has exactly one
subdirectory, but the enumerator assigns it index 1 (its position in the
full listing), not an index in `{0}`: `enumerate` runs before the
`is_dir()` filter, so plain files consume indices. -/
theorem C2_counterexample :
    buildSpeakerIds [⟨"f", false⟩, ⟨"a", true⟩] = [("a", 1)] ∧
    ¬ (∀ v ∈ (buildSpeakerIds [⟨"f", false⟩, ⟨"a", true⟩]).map Prod.snd,
        v < ([(⟨"f", false⟩ : Entry), ⟨"a", true⟩].filter Entry.isDir).length) := by
  decide

/-- C2 (amended): for a listing with distinct entry names, the enumerator
returns one entry per subdirectory, the assigned indices are pairwise
distinct, and when every entry of the listing is a directory the indices
are exactly `{0, ..., N-1}` in listing order. -/
theorem C2_speaker_enumerator (listing : List Entry)
    (h : (listing.map Entry.name).Nodup) :
    (buildSpeakerIds listing).length = (listing.filter Entry.isDir).length ∧
    ((buildSpeakerIds listing).map Prod.snd).Nodup ∧
    ((∀ e ∈ listing, e.isDir) →
      (buildSpeakerIds listing).map Prod.snd = List.range listing.length) := by
  rw [buildSpeakerIds_eq listing h]
  refine ⟨dirPositionsAux_length listing 0, dirPositionsAux_snd_nodup listing 0, ?_⟩
  intro hall
  rw [dirPositionsAux_snd_all_dirs listing 0 hall, List.range_eq_range']

/-- Witness for the amended C2, on a two-directory listing. -/
theorem C2_speaker_enumerator_witness :
    (([(⟨"a", true⟩ : Entry), ⟨"b", true⟩].map Entry.name).Nodup) ∧
    (buildSpeakerIds [⟨"a", true⟩, ⟨"b", true⟩]).length = 2 ∧
    (buildSpeakerIds [⟨"a", true⟩, ⟨"b", true⟩]).map Prod.snd = List.range 2 := by
  have h := C2_speaker_enumerator [⟨"a", true⟩, ⟨"b", true⟩] (by decide)
  exact ⟨by decide, by simpa using h.1, h.2.2 (by decide)⟩

/-- C4: within one speaker map produced by the enumerator (on a listing
with distinct entry names, as a directory listing always has), no two
speaker names receive the same index. -/
theorem C4_speaker_indices_unique (listing : List Entry)
    (h : (listing.map Entry.name).Nodup) :
    ((buildSpeakerIds listing).map Prod.snd).Nodup := by
  rw [buildSpeakerIds_eq listing h]
  exact dirPositionsAux_snd_nodup listing 0

/-- Witness for C4, on a listing mixing directories and a file. -/
theorem C4_speaker_indices_unique_witness :
    ((buildSpeakerIds [⟨"a", true⟩, ⟨"f", false⟩, ⟨"b", true⟩]).map
      Prod.snd).Nodup :=
  C4_speaker_indices_unique [⟨"a", true⟩, ⟨"f", false⟩, ⟨"b", true⟩] (by decide)

/-- C10: the per-speaker lookup in the validation descriptor comprehension
can never raise a missing-key error: the iteration ranges over the
validation map's own keys (so `val_speaker_ids[speaker]` succeeds) and the
training lookup is a defaulted `get`; the builder is total for all maps. -/
theorem C10_valid_lookup_never_fails (train val : Dict) :
    (buildValidDescriptors train val).isSome :=
  buildValidDescriptors_isSome train val

lemma generate_config_multi_ok (fs : FileSystem)
    (m d s o tc mc pc dl sc oc : String) (tl vl : List Entry)
    (ht : fs.file "configs/trainer/base.yaml" = some tc)
    (hm : fs.file (fragPath "model" m) = some mc)
    (hp : fs.file (fragPath "preprocessing" m) = some pc)
    (htl : fs.listing "dataset/train" = some tl)
    (hvl : fs.listing "dataset/valid" = some vl)
    (hdl : fs.file (fragPath "dataloader" d) = some dl)
    (hs : fs.file (fragPath "scheduler" s) = some sc)
    (hoc : fs.file (fragPath "optimizer" s) = some oc) :
    ∃ doc : Config,
      generate_config fs m d s o true =
        .ok [{ path := "configs/" ++ o ++ ".yaml", doc := doc, resolved := true }]
          ["Saved configuration to configs/" ++ o ++ ".yaml"] ∧
      doc.model.speaker_encoder_input_size =
        some (buildSpeakerIds tl).length := by
  obtain ⟨tds, htds⟩ :=
    Option.isSome_iff_exists.1 (buildTrainDescriptors_isSome (buildSpeakerIds tl))
  obtain ⟨vds, hvds⟩ :=
    Option.isSome_iff_exists.1
      (buildValidDescriptors_isSome (buildSpeakerIds tl) (buildSpeakerIds vl))
  refine ⟨{ trainer := tc
            model_type := "DiffSVC"
            text_features_extractor_type := "HubertSoft"
            pitch_extractor_type := "ParselMouthPitchExtractor"
            tensorboard := false
            only_train_speaker_embeddings := false
            path := "dataset"
            clean := false
            num_workers := 8
            no_augmentation := true
            model := { fragment := mc,
                       speaker_encoder_input_size :=
                         some (buildSpeakerIds tl).length }
            preprocessing := pc
            dataset := .synthesized
              ⟨concatTarget, tds, naiveCollateFn⟩
              ⟨concatTarget, vds, naiveCollateFn⟩
            dataloader := dl
            scheduler := sc
            optimizer := oc }, ?_, rfl⟩
  simp only [generate_config, ht, hm, hp, htl, hvl, htds, hvds, hdl, hs, hoc,
    if_true]

lemma generate_config_single_ok (fs : FileSystem)
    (m d s o tc mc pc ds dl sc oc : String)
    (ht : fs.file "configs/trainer/base.yaml" = some tc)
    (hm : fs.file (fragPath "model" m) = some mc)
    (hp : fs.file (fragPath "preprocessing" m) = some pc)
    (hds : fs.file (fragPath "dataset" d) = some ds)
    (hdl : fs.file (fragPath "dataloader" d) = some dl)
    (hs : fs.file (fragPath "scheduler" s) = some sc)
    (hoc : fs.file (fragPath "optimizer" s) = some oc) :
    ∃ doc : Config,
      generate_config fs m d s o false =
        .ok [{ path := "configs/" ++ o ++ ".yaml", doc := doc, resolved := true }]
          ["Saved configuration to configs/" ++ o ++ ".yaml"] := by
  refine ⟨{ trainer := tc
            model_type := "DiffSVC"
            text_features_extractor_type := "HubertSoft"
            pitch_extractor_type := "ParselMouthPitchExtractor"
            tensorboard := false
            only_train_speaker_embeddings := false
            path := "dataset"
            clean := false
            num_workers := 8
            no_augmentation := true
            model := { fragment := mc, speaker_encoder_input_size := none }
            preprocessing := pc
            dataset := .fragment ds
            dataloader := dl
            scheduler := sc
            optimizer := oc }, ?_⟩
  simp only [generate_config, ht, hm, hp, hds, hdl, hs, hoc, Bool.false_eq_true,
    if_false]

/-- C3: after a successful multi-speaker run, the written document's
`model.speaker_encoder.input_size` equals the number of entries of the
training speaker map, which (for a training listing with distinct names)
is exactly the number of subdirectories of `dataset/train`; the field is
set in the assembled document itself, hence after the training map exists
and before the save. -/
theorem C3_speaker_encoder_input_size (fs : FileSystem)
    (m d s o tc mc pc dl sc oc : String) (tl vl : List Entry)
    (ht : fs.file "configs/trainer/base.yaml" = some tc)
    (hm : fs.file (fragPath "model" m) = some mc)
    (hp : fs.file (fragPath "preprocessing" m) = some pc)
    (htl : fs.listing "dataset/train" = some tl)
    (hvl : fs.listing "dataset/valid" = some vl)
    (hdl : fs.file (fragPath "dataloader" d) = some dl)
    (hs : fs.file (fragPath "scheduler" s) = some sc)
    (hoc : fs.file (fragPath "optimizer" s) = some oc)
    (hnd : (tl.map Entry.name).Nodup) :
    ∃ doc : Config,
      generate_config fs m d s o true =
        .ok [{ path := "configs/" ++ o ++ ".yaml", doc := doc, resolved := true }]
          ["Saved configuration to configs/" ++ o ++ ".yaml"] ∧
      doc.model.speaker_encoder_input_size =
        some ((tl.filter Entry.isDir).length) := by
  obtain ⟨doc, hrun, hsize⟩ :=
    generate_config_multi_ok fs m d s o tc mc pc dl sc oc tl vl
      ht hm hp htl hvl hdl hs hoc
  refine ⟨doc, hrun, ?_⟩
  rw [hsize, buildSpeakerIds_eq tl hnd, dirPositionsAux_length tl 0]

/-- Witness for C3 on a concrete filesystem with two training speakers. -/
theorem C3_speaker_encoder_input_size_witness :
    ∃ doc : Config,
      generate_config fsOk "mdl" "ds" "sch" "out" true =
        .ok [{ path := "configs/out.yaml", doc := doc, resolved := true }]
          ["Saved configuration to configs/out.yaml"] ∧
      doc.model.speaker_encoder_input_size = some 2 := by
  have h := C3_speaker_encoder_input_size fsOk "mdl" "ds" "sch" "out"
    "frag" "frag" "frag" "frag" "frag" "frag"
    [⟨"spk_a", true⟩, ⟨"spk_b", true⟩] [⟨"spk_a", true⟩, ⟨"spk_c", true⟩]
    rfl rfl rfl rfl rfl rfl rfl rfl (by decide)
  simpa using h

/-- C7: when the model fragment for the requested name does not exist, the
run reaches the aborted outcome with a single logged message containing
that name, and no file is written: the save step is never reached. -/
theorem C7_missing_model_no_write (fs : FileSystem)
    (m d s o tc : String) (msp : Bool)
    (ht : fs.file "configs/trainer/base.yaml" = some tc)
    (hm : fs.file (fragPath "model" m) = none) :
    generate_config fs m d s o msp =
      .aborted ["Could not find model " ++ m ++ ", exiting."] ∧
    writesOf (generate_config fs m d s o msp) = [] ∧
    (∃ pre suf, logsOf (generate_config fs m d s o msp) = [pre ++ m ++ suf]) := by
  have hrun : generate_config fs m d s o msp =
      .aborted ["Could not find model " ++ m ++ ", exiting."] := by
    simp only [generate_config, ht, hm]
  refine ⟨hrun, ?_, "Could not find model ", ", exiting.", ?_⟩
  · rw [hrun]
    rfl
  · rw [hrun]
    rfl

/-- Witness for C7, at the nonexistent model name `ghost`. -/
theorem C7_missing_model_no_write_witness :
    generate_config fsNoModel "ghost" "ds" "sch" "out" true =
      .aborted ["Could not find model ghost, exiting."] ∧
    writesOf (generate_config fsNoModel "ghost" "ds" "sch" "out" true) = [] := by
  have h := C7_missing_model_no_write fsNoModel "ghost" "ds" "sch" "out"
    "frag" true rfl rfl
  exact ⟨h.1, h.2.1⟩

/-- C8: on normal completion (every required load succeeds, in either
mode) the run performs exactly one write, to `configs/<output>.yaml`, with
variable resolution enabled at the save (`resolve=True`), and logs the
destination path. -/
theorem C8_normal_completion (fs : FileSystem)
    (m d s o tc mc pc sc oc : String) (msp : Bool)
    (ht : fs.file "configs/trainer/base.yaml" = some tc)
    (hm : fs.file (fragPath "model" m) = some mc)
    (hp : fs.file (fragPath "preprocessing" m) = some pc)
    (hs : fs.file (fragPath "scheduler" s) = some sc)
    (hoc : fs.file (fragPath "optimizer" s) = some oc)
    (hds : if msp then
        (∃ tl, fs.listing "dataset/train" = some tl) ∧
        (∃ vl, fs.listing "dataset/valid" = some vl) ∧
        (∃ dl, fs.file (fragPath "dataloader" d) = some dl)
      else
        (∃ ds, fs.file (fragPath "dataset" d) = some ds) ∧
        (∃ dl, fs.file (fragPath "dataloader" d) = some dl)) :
    ∃ doc : Config,
      generate_config fs m d s o msp =
        .ok [{ path := "configs/" ++ o ++ ".yaml", doc := doc, resolved := true }]
          ["Saved configuration to configs/" ++ o ++ ".yaml"] := by
  cases msp with
  | true =>
      simp only [if_true] at hds
      obtain ⟨⟨tl, htl⟩, ⟨vl, hvl⟩, ⟨dl, hdl⟩⟩ := hds
      obtain ⟨doc, hrun, _⟩ :=
        generate_config_multi_ok fs m d s o tc mc pc dl sc oc tl vl
          ht hm hp htl hvl hdl hs hoc
      exact ⟨doc, hrun⟩
  | false =>
      simp only [Bool.false_eq_true, if_false] at hds
      obtain ⟨⟨ds, hdsf⟩, ⟨dl, hdl⟩⟩ := hds
      exact generate_config_single_ok fs m d s o tc mc pc ds dl sc oc
        ht hm hp hdsf hdl hs hoc

/-- Witness for C8, in single-speaker mode on a filesystem with every
fragment present. -/
theorem C8_normal_completion_witness :
    ∃ doc : Config,
      generate_config fsOk "mdl" "ds" "sch" "out" false =
        .ok [{ path := "configs/out.yaml", doc := doc, resolved := true }]
          ["Saved configuration to configs/out.yaml"] := by
  have h := C8_normal_completion fsOk "mdl" "ds" "sch" "out"
    "frag" "frag" "frag" "frag" "frag" false
    rfl rfl rfl rfl rfl
    (by exact ⟨⟨"frag", rfl⟩, ⟨"frag", rfl⟩⟩)
  simpa using h

/-- A filesystem with every fragment file present but no speaker
directories at all. -/
def fsNoSpeakerDirs : FileSystem where
  file := fun _ => some "frag"
  listing := fun _ => none

/-- C5 counterexample: with the `preprocessing` fragment for model name
`mdl` missing (and the `model` fragment present), the run aborts but the
logged error is `Could not find model mdl, exiting.`, which does not name
the missing category `preprocessing`. -/
theorem C5_counterexample :
    generate_config fsPreMissing "mdl" "ds" "sch" "out" false =
      .aborted ["Could not find model mdl, exiting."] ∧
    fsPreMissing.file (fragPath "preprocessing" "mdl") = none ∧
    (∃ mc, fsPreMissing.file (fragPath "model" "mdl") = some mc) ∧
    ¬ ("preprocessing".data <:+: "Could not find model mdl, exiting.".data) := by
  refine ⟨by decide, by decide, ⟨"frag", by decide⟩, by decide⟩

/-- C5 (amended): a missing fragment in any of the six categories aborts
the run with a logged error containing the requested name, but the message
names the group label of the load site — `model` for the
model/preprocessing pair, `dataset` for the single-speaker
dataset/dataloader pair, `scheduler` for the scheduler/optimizer pair —
not necessarily the exact category that was missing; in multi-speaker mode
a missing dataloader aborts with the underlying error message instead. -/
theorem C5_missing_fragment_behaviour (fs : FileSystem)
    (m d s o tc : String)
    (ht : fs.file "configs/trainer/base.yaml" = some tc) :
    (fs.file (fragPath "model" m) = none →
      ∀ msp, generate_config fs m d s o msp =
        .aborted ["Could not find model " ++ m ++ ", exiting."]) ∧
    (∀ mc, fs.file (fragPath "model" m) = some mc →
      fs.file (fragPath "preprocessing" m) = none →
      ∀ msp, generate_config fs m d s o msp =
        .aborted ["Could not find model " ++ m ++ ", exiting."]) ∧
    (∀ mc pc, fs.file (fragPath "model" m) = some mc →
      fs.file (fragPath "preprocessing" m) = some pc →
      fs.file (fragPath "dataset" d) = none →
      generate_config fs m d s o false =
        .aborted ["Could not find dataset " ++ d ++ ", exiting."]) ∧
    (∀ mc pc ds, fs.file (fragPath "model" m) = some mc →
      fs.file (fragPath "preprocessing" m) = some pc →
      fs.file (fragPath "dataset" d) = some ds →
      fs.file (fragPath "dataloader" d) = none →
      generate_config fs m d s o false =
        .aborted ["Could not find dataset " ++ d ++ ", exiting."]) ∧
    (∀ mc pc tl vl, fs.file (fragPath "model" m) = some mc →
      fs.file (fragPath "preprocessing" m) = some pc →
      fs.listing "dataset/train" = some tl →
      fs.listing "dataset/valid" = some vl →
      fs.file (fragPath "dataloader" d) = none →
      generate_config fs m d s o true =
        .aborted ["error: " ++ fileNotFoundMsg (fragPath "dataloader" d)]) ∧
    (∀ mc pc ds dl, fs.file (fragPath "model" m) = some mc →
      fs.file (fragPath "preprocessing" m) = some pc →
      fs.file (fragPath "dataset" d) = some ds →
      fs.file (fragPath "dataloader" d) = some dl →
      fs.file (fragPath "scheduler" s) = none →
      generate_config fs m d s o false =
        .aborted ["Could not find scheduler " ++ s ++ ", exiting."]) ∧
    (∀ mc pc ds dl sc, fs.file (fragPath "model" m) = some mc →
      fs.file (fragPath "preprocessing" m) = some pc →
      fs.file (fragPath "dataset" d) = some ds →
      fs.file (fragPath "dataloader" d) = some dl →
      fs.file (fragPath "scheduler" s) = some sc →
      fs.file (fragPath "optimizer" s) = none →
      generate_config fs m d s o false =
        .aborted ["Could not find scheduler " ++ s ++ ", exiting."]) := by
  refine ⟨?_, ?_, ?_, ?_, ?_, ?_, ?_⟩
  · intro hm msp
    simp only [generate_config, ht, hm]
  · intro mc hm hp msp
    simp only [generate_config, ht, hm, hp]
  · intro mc pc hm hp hds
    simp only [generate_config, ht, hm, hp, hds, Bool.false_eq_true, if_false]
  · intro mc pc ds hm hp hds hdl
    simp only [generate_config, ht, hm, hp, hds, hdl, Bool.false_eq_true,
      if_false]
  · intro mc pc tl vl hm hp htl hvl hdl
    obtain ⟨tds, htds⟩ := Option.isSome_iff_exists.1
      (buildTrainDescriptors_isSome (buildSpeakerIds tl))
    obtain ⟨vds, hvds⟩ := Option.isSome_iff_exists.1
      (buildValidDescriptors_isSome (buildSpeakerIds tl) (buildSpeakerIds vl))
    simp only [generate_config, ht, hm, hp, htl, hvl, htds, hvds, hdl, if_true]
  · intro mc pc ds dl hm hp hds hdl hs
    simp only [generate_config, ht, hm, hp, hds, hdl, hs, Bool.false_eq_true,
      if_false]
  · intro mc pc ds dl sc hm hp hds hdl hs hoc
    simp only [generate_config, ht, hm, hp, hds, hdl, hs, hoc,
      Bool.false_eq_true, if_false]

/-- Witness for the amended C5: the missing-preprocessing case on
`fsPreMissing`. -/
theorem C5_missing_fragment_behaviour_witness :
    generate_config fsPreMissing "mdl" "ds" "sch" "out" false =
      .aborted ["Could not find model mdl, exiting."] := by
  have h := (C5_missing_fragment_behaviour fsPreMissing "mdl" "ds" "sch" "out"
    "frag" rfl).2.1
  exact h "frag" rfl rfl false

/-- C6: every reachable failure of the multi-speaker dataset-resolution
stage — a missing train split, a missing valid split, or a missing
dataloader fragment — aborts the run with the underlying error message
prefixed by `error: `, and no such message ever coincides with the
single-speaker `Could not find dataset <name>, exiting.` message (the
remaining failure mode of the stage, a missing-key lookup, is unreachable
by `C10`-style totality of the descriptor builder). -/
theorem C6_multi_speaker_failure_messages (fs : FileSystem)
    (m d s o tc mc pc : String)
    (ht : fs.file "configs/trainer/base.yaml" = some tc)
    (hm : fs.file (fragPath "model" m) = some mc)
    (hp : fs.file (fragPath "preprocessing" m) = some pc) :
    (fs.listing "dataset/train" = none →
      generate_config fs m d s o true =
        .aborted ["error: " ++ fileNotFoundMsg "dataset/train"]) ∧
    (∀ tl, fs.listing "dataset/train" = some tl →
      fs.listing "dataset/valid" = none →
      generate_config fs m d s o true =
        .aborted ["error: " ++ fileNotFoundMsg "dataset/valid"]) ∧
    (∀ tl vl, fs.listing "dataset/train" = some tl →
      fs.listing "dataset/valid" = some vl →
      fs.file (fragPath "dataloader" d) = none →
      generate_config fs m d s o true =
        .aborted ["error: " ++ fileNotFoundMsg (fragPath "dataloader" d)]) ∧
    (∀ emsg dd, "error: " ++ emsg ≠
      "Could not find dataset " ++ dd ++ ", exiting.") := by
  refine ⟨?_, ?_, ?_, error_msg_ne_generic⟩
  · intro htl
    simp only [generate_config, ht, hm, hp, htl, if_true]
  · intro tl htl hvl
    simp only [generate_config, ht, hm, hp, htl, hvl, if_true]
  · intro tl vl htl hvl hdl
    obtain ⟨tds, htds⟩ := Option.isSome_iff_exists.1
      (buildTrainDescriptors_isSome (buildSpeakerIds tl))
    obtain ⟨vds, hvds⟩ := Option.isSome_iff_exists.1
      (buildValidDescriptors_isSome (buildSpeakerIds tl) (buildSpeakerIds vl))
    simp only [generate_config, ht, hm, hp, htl, hvl, htds, hvds, hdl, if_true]

/-- Witness for C6: the missing-train-split case on a filesystem with all
fragments present but no speaker directories. -/
theorem C6_multi_speaker_failure_messages_witness :
    generate_config fsNoSpeakerDirs "mdl" "ds" "sch" "out" true =
      .aborted ["error: " ++ fileNotFoundMsg "dataset/train"] := by
  have h := (C6_multi_speaker_failure_messages fsNoSpeakerDirs
    "mdl" "ds" "sch" "out" "frag" "frag" "frag" rfl rfl rfl).1
  exact h rfl

/-- C9: the assembler is a deterministic function of its inputs: two
filesystems that agree on every path the run reads (the trainer file, the
six fragment paths, and the two split listings) yield identical outcomes —
in particular, rerunning with an unchanged filesystem reproduces the same
document, and no time-varying data enters the output. -/
theorem C9_deterministic (fs1 fs2 : FileSystem)
    (m d s o : String) (msp : Bool)
    (h1 : fs1.file "configs/trainer/base.yaml" =
      fs2.file "configs/trainer/base.yaml")
    (h2 : fs1.file (fragPath "model" m) = fs2.file (fragPath "model" m))
    (h3 : fs1.file (fragPath "preprocessing" m) =
      fs2.file (fragPath "preprocessing" m))
    (h4 : fs1.file (fragPath "dataset" d) = fs2.file (fragPath "dataset" d))
    (h5 : fs1.file (fragPath "dataloader" d) =
      fs2.file (fragPath "dataloader" d))
    (h6 : fs1.file (fragPath "scheduler" s) =
      fs2.file (fragPath "scheduler" s))
    (h7 : fs1.file (fragPath "optimizer" s) =
      fs2.file (fragPath "optimizer" s))
    (h8 : fs1.listing "dataset/train" = fs2.listing "dataset/train")
    (h9 : fs1.listing "dataset/valid" = fs2.listing "dataset/valid") :
    generate_config fs1 m d s o msp = generate_config fs2 m d s o msp := by
  simp only [generate_config, h1, h2, h3, h4, h5, h6, h7, h8, h9]

/-- Witness for C9: `fsOk` and `fsOk2` differ at an unrelated path but
agree on everything the run reads, so the runs coincide. -/
theorem C9_deterministic_witness :
    generate_config fsOk "mdl" "ds" "sch" "out" true =
      generate_config fsOk2 "mdl" "ds" "sch" "out" true :=
  C9_deterministic fsOk fsOk2 "mdl" "ds" "sch" "out" true
    rfl rfl rfl rfl rfl rfl rfl rfl rfl

end FishDiffusion
